import Mathlib

/-!
Verification of the modtm Terraform provider core

Shallow embedding of the `internal/provider` package of the
`terraform-provider-modtm` repository: the endpoint-resolution precedence
logic (`provider.go`), the telemetry delivery path (`telemetry_resource.go`),
the module-manifest lookup (`telemetry_resource.go`,
`module_source_interface.go`) and the tags validator (`map_validator.go`).

Go `types.String` values from the terraform-plugin-framework are embedded as
a three-valued type (null / unknown / known value); Go maps are embedded as
`String → Option String` lookup functions or association lists; fallible
steps (JSON marshalling, HTTP) are given explicit outcome parameters.
-/

namespace Modtm

/-- terraform-plugin-framework `types.String`: null, unknown, or a known
string value. -/
inductive TFString where
  | null
  | unknown
  | value (s : String)
deriving DecidableEq, Repr

/-- `IsNull()` of a framework string. -/
def TFString.isNull : TFString → Bool
  | .null => true
  | _ => false

/-- `IsUnknown()` of a framework string. -/
def TFString.isUnknown : TFString → Bool
  | .unknown => true
  | _ => false

/-- `ValueString()` of a framework string: the known value, or `""` for
null/unknown. -/
def TFString.valueString : TFString → String
  | .value s => s
  | _ => ""

/-- The combined effect of `strconv.Unquote(x.String())` as used by
`readEndpoint`, `readResourceId` and `readEndpointFromProviderBlock`:
for a known value the `%q`-quote / `Unquote` round-trip returns the value
itself (we model values whose quoted form round-trips), while for null and
unknown the framework `String()` sentinels `<null>` / `<unknown>` are not
valid quoted strings, `Unquote` fails, and the raw sentinel is returned. -/
def TFString.unquoteGoString : TFString → String
  | .value s => s
  | .null => "<null>"
  | .unknown => "<unknown>"

/-! ## provider.go: Configure and the once-guarded endpoint resolution -/

/-- Observations available to `Provider.Configure`: the provider block's
`endpoint` attribute, `os.Getenv("MODTM_ENDPOINT")` (`""` when unset), and
the outcome of `readEndpointFromBlob` (the remote default-endpoint fetch;
`Except.error` covers both a failed GET/read and its 5-second timeout). -/
structure ConfigureEnv where
  providerEndpoint : TFString
  endpointEnv : String
  blobFetch : Except Unit String
deriving Repr

/-- `readEndpointFromProviderBlock` (provider.go): `strconv.Unquote` of the
provider-block endpoint's `String()` form. -/
def readEndpointFromProviderBlock (pe : TFString) : String :=
  pe.unquoteGoString

/-- The body of the `once.Do` closure inside `Configure` (provider.go
lines 100-118): provider-block endpoint first, then the `MODTM_ENDPOINT`
environment variable, then the remote blob fetch; `""` when the blob fetch
fails. -/
def endpointOnceBody (env : ConfigureEnv) : String :=
  if !env.providerEndpoint.isNull then
    readEndpointFromProviderBlock env.providerEndpoint
  else if env.endpointEnv ≠ "" then
    env.endpointEnv
  else
    match env.blobFetch with
    | .ok e => e
    | .error _ => ""

/-- The mutable state captured by the `endpointFunc` closure: the
`sync.Once` gate and the memoized `endpoint` string. -/
structure OnceState where
  done : Bool
  endpoint : String
deriving DecidableEq, Repr

/-- The state of the closure right after `Configure` builds it:
`once` has not fired and `endpoint` is `""`. -/
def initialOnceState : OnceState := ⟨false, ""⟩

/-- One call of the memoized `endpointFunc`: if the `sync.Once` gate has
fired the stored endpoint is returned unchanged, otherwise the resolution
body runs and its result is stored.  The returned `Bool` records whether
the resolution body executed during this call. -/
def endpointFuncCall (env : ConfigureEnv) (s : OnceState) :
    String × OnceState × Bool :=
  if s.done then (s.endpoint, s, false)
  else
    let e := endpointOnceBody env
    (e, ⟨true, e⟩, true)

/-- The trace of `n` sequential calls of `endpointFunc` from state `s`:
for each call, the returned endpoint and whether the resolution body ran. -/
def callTrace (env : ConfigureEnv) : Nat → OnceState → List (String × Bool)
  | 0, _ => []
  | n + 1, s =>
    let r := endpointFuncCall env s
    (r.1, r.2.2) :: callTrace env n r.2.1

/-- `c.defaultEndpoint` as computed at provider.go line 133:
true iff the provider block's endpoint is null and `MODTM_ENDPOINT` is
empty. -/
def defaultEndpointFlag (env : ConfigureEnv) : Bool :=
  env.providerEndpoint.isNull && (env.endpointEnv == "")

/-! ## telemetry_resource.go: the resource model and sendTags -/

/-- `TelemetryResourceModel` (telemetry_resource.go).  `tags` is the
`Tags` map as an association list of already-unquoted string pairs
(Terraform maps have pairwise distinct keys). -/
structure TelemetryResourceModel where
  id : TFString
  tags : List (String × String)
  endpoint : TFString
  modulePath : TFString
  moduleVersion : TFString
  moduleSource : TFString
deriving DecidableEq, Repr

/-- `readEndpoint`: `strconv.Unquote(resource.Endpoint.String())` with
fallback to the raw `String()` form. -/
def TelemetryResourceModel.readEndpoint (m : TelemetryResourceModel) : String :=
  m.endpoint.unquoteGoString

/-- `readResourceId`: `strconv.Unquote(resource.Id.String())` with fallback
to the raw `String()` form. -/
def TelemetryResourceModel.readResourceId (m : TelemetryResourceModel) : String :=
  m.id.unquoteGoString

/-- `readTags`: the user tag map, one entry per `Tags.Elements()` pair with
the value unquoted.  Embedded as association-list lookup. -/
def TelemetryResourceModel.readTags (m : TelemetryResourceModel) :
    String → Option String :=
  fun k => (m.tags.find? (fun p => p.1 == k)).map Prod.snd

/-- The endpoint chosen by `sendTags` (telemetry_resource.go lines 282-287):
the provider's memoized endpoint unless `defaultEndpointOnProviderBlock` is
set and the resource block carries a non-null endpoint, in which case the
resource-level endpoint is read. -/
def chosenEndpoint (defaultEndpointOnProviderBlock : Bool)
    (providerEndpointValue : String) (m : TelemetryResourceModel) : String :=
  if !defaultEndpointOnProviderBlock || m.endpoint.isNull then
    providerEndpointValue
  else
    m.readEndpoint

/-- Whether `sendTags` takes the resource-endpoint branch (the `else` arm at
telemetry_resource.go line 285). -/
def resourceEndpointUsed (defaultEndpointOnProviderBlock : Bool)
    (m : TelemetryResourceModel) : Bool :=
  defaultEndpointOnProviderBlock && !m.endpoint.isNull

/-- The POST that `sendTags` hands to `sendPostRequest`: the chosen URL and
the tag map. -/
structure PostRequest where
  url : String
  payload : String → Option String

/-- The payload map built by `sendTags` (telemetry_resource.go lines
277-281): the user tags with `source`, `version`, `event` and `resource_id`
assigned afterwards.  The four assigned keys are pairwise distinct, so the
sequence of Go map assignments is this case split (last assignment first). -/
def TelemetryResourceModel.payloadTags (m : TelemetryResourceModel)
    (event : String) : String → Option String :=
  fun k =>
    if k = "resource_id" then some m.readResourceId
    else if k = "event" then some event
    else if k = "version" then some m.moduleVersion.valueString
    else if k = "source" then some m.moduleSource.valueString
    else m.readTags k

/-- `sendTags` (telemetry_resource.go lines 273-291): no-op when the
provider is disabled; otherwise builds the payload, chooses the endpoint,
and calls `sendPostRequest` exactly when the chosen endpoint is non-empty.
Returns the request passed to `sendPostRequest`, or `none` when no POST is
attempted.  `providerEndpointValue` is the value returned by the memoized
`r.providerEndpointFunc()`. -/
def TelemetryResourceModel.sendTags (m : TelemetryResourceModel)
    (enabled defaultEndpointOnProviderBlock : Bool)
    (providerEndpointValue : String) (event : String) : Option PostRequest :=
  if !enabled then none
  else
    let tags := m.payloadTags event
    let endpoint := chosenEndpoint defaultEndpointOnProviderBlock
      providerEndpointValue m
    if endpoint ≠ "" then some ⟨endpoint, tags⟩ else none

/-! ## telemetry_resource.go: sendPostRequest -/

/-- A log call made through `traceLog` / `errorLog`. -/
inductive LogEntry where
  | trace (msg : String)
  | error (msg : String)
deriving DecidableEq, Repr

/-- The network-side outcome of the goroutine raced inside
`sendPostRequest`: a response (with its status text), a `client.Do` error,
or the 5-second timer firing first. -/
inductive NetOutcome where
  | response (status : String)
  | connError (msg : String)
  | timeout
deriving DecidableEq, Repr

/-- Abstract outcomes of the fallible steps inside `sendPostRequest`:
`json.Marshal`, `http.NewRequest`, and the raced HTTP round-trip. -/
structure SendEnv where
  marshalError : Option String
  newRequestError : Option String
  netOutcome : NetOutcome
deriving DecidableEq, Repr

/-- The HTTP request built by `sendPostRequest` before `client.Do`. -/
structure HttpRequest where
  method : String
  url : String
  contentType : String
deriving DecidableEq, Repr

/-- What one call of `sendPostRequest` did: its log calls, the request
handed to `client.Do` (if one was built and issued), the error surfaced to
the caller (the Go function returns nothing, so always `none`), and how
many `client.Do` attempts were started. -/
structure SendResult where
  logs : List LogEntry
  request : Option HttpRequest
  surfacedError : Option String
  attempts : Nat
deriving DecidableEq, Repr

/-- `sendPostRequest` (telemetry_resource.go lines 229-269), step by step:
marshal the tags (on failure: error log, return); read `tags["event"]`
(`""` for a missing key, as for a Go map); trace-log the destination; build
the POST request with `Content-Type: application/json` (on failure: error
log naming the event, return); race `client.Do` against a 5-second timer
and log the outcome; return in every case without surfacing an error. -/
def sendPostRequest (url : String) (tags : String → Option String)
    (env : SendEnv) : SendResult :=
  match env.marshalError with
  | some e =>
      ⟨[.error ("error on unmarshal telemetry resource: " ++ e)],
        none, none, 0⟩
  | none =>
    let event := (tags "event").getD ""
    let sendingLog := LogEntry.trace ("sending tags to " ++ url)
    match env.newRequestError with
    | some e =>
        ⟨[sendingLog,
          .error ("error on composing http request for " ++ event ++
            " telemetry resource: " ++ e)], none, none, 0⟩
    | none =>
      let req : HttpRequest := ⟨"POST", url, "application/json"⟩
      match env.netOutcome with
      | .response status =>
          ⟨[sendingLog,
            .trace ("response Status for " ++ event ++
              " telemetry resource: " ++ status)], some req, none, 1⟩
      | .connError e =>
          ⟨[sendingLog,
            .error ("error on " ++ event ++ " telemetry resource: " ++ e)],
            some req, none, 1⟩
      | .timeout =>
          ⟨[sendingLog,
            .error ("timeout on " ++ event ++ " telemetry resource")],
            some req, none, 1⟩

/-- `pat` occurs as a contiguous substring of `s`. -/
def strContains (s pat : String) : Prop :=
  pat.data <:+: s.data

instance (s pat : String) : Decidable (strContains s pat) :=
  List.decidableInfix pat.data s.data

/-! ## map_validator.go: the tags validator -/

/-- `reservedKeys` of `ValidateMap` (map_validator.go line 27). -/
def reservedKeys : List String := ["event"]

/-- `ValidateMap` (map_validator.go lines 26-34): one error diagnostic is
added per configured key that is in `reservedKeys`. -/
def validateMap (tagKeys : List String) : List String :=
  tagKeys.filterMap (fun k =>
    if reservedKeys.contains k then
      some ("`tags` must not contains keys [event].")
    else none)

/-! ## telemetry_resource.go / module_source_interface.go: manifest lookup -/

/-- `modulesJsonModulesModel` (telemetry_resource.go lines 354-358): one
entry of the `Modules` array of `modules.json`.  The struct has no `Dir`
field; any `Dir` present in the JSON document is dropped by unmarshalling. -/
structure modulesJsonModulesModel where
  Key : String
  Source : String
  Version : String
deriving DecidableEq, Repr

/-- `terraformDataDir` (telemetry_resource.go lines 363-370): `TF_DATA_DIR`
when the variable is set (even to `""`), else `.terraform`. -/
def terraformDataDir (tfDataDirEnv : Option String) : String :=
  match tfDataDirEnv with
  | some d => d
  | none => ".terraform"

/-- `filepath.Join` for the already-clean inputs this code joins. -/
def filepathJoin (a b : String) : String :=
  if a = "" then b else a ++ "/" ++ b

/-- Accumulator loop of `stringsSplit`. -/
def splitSegsAux (c : Char) : List Char → List Char → List String
  | [], acc => [String.mk acc.reverse]
  | x :: xs, acc =>
    if x = c then String.mk acc.reverse :: splitSegsAux c xs []
    else splitSegsAux c xs (x :: acc)

/-- `strings.Split(s, sep)` for the single-character separator
(`os.PathSeparator`, `/`) this code splits on; in particular
`Split("", "/")` is `[""]`. -/
def stringsSplit (s : String) (c : Char) : List String :=
  splitSegsAux c s.data []

/-- The `for i, p := range strings.Split(modulePath, sep)` loop of
`modulePathToKey`: past the end of the modules-dir segments the current
path segment is the key; a mismatching segment breaks out to the error
return; an exhausted path falls through to the error return. -/
def modulePathToKeyLoop (modulesDirList : List String) :
    Nat → List String → Except String String
  | _, [] => .error "could not find module key"
  | i, p :: rest =>
    if i ≥ modulesDirList.length then .ok p
    else if modulesDirList.getD i "" ≠ p then
      .error "could not find module key"
    else modulePathToKeyLoop modulesDirList (i + 1) rest

/-- `modulePathToKey` (telemetry_resource.go lines 377-389): match the
segments of `<data-dir>/modules` against the supplied path and return the
first path segment past the matched prefix. -/
def modulePathToKey (tfDataDirEnv : Option String) (modulePath : String) :
    Except String String :=
  let modulesDir := filepathJoin (terraformDataDir tfDataDirEnv) "modules"
  modulePathToKeyLoop (stringsSplit modulesDir '/') 0
    (stringsSplit modulePath '/')

/-- `parseModulesJson` (telemetry_resource.go lines 324-346) with the file
open/read/`json.Unmarshal` steps abstracted into a `manifest` parameter
(`Except.error` for a missing or malformed file): the first entry whose
`Key` equals the argument, else an error. -/
def parseModulesJson (manifest : Except String (List modulesJsonModulesModel))
    (key : String) : Except String modulesJsonModulesModel :=
  match manifest with
  | .error e => .error e
  | .ok modules =>
    match modules.find? (fun m => m.Key == key) with
    | some m => .ok m
    | none => .error ("module with key " ++ key ++ " not found in modules.json")

/-- `updateModuleSourceAndVersion` (telemetry_resource.go lines 210-226):
null out source/version, then, for a known module path, derive the lookup
key with `modulePathToKey` and look it up with `parseModulesJson`; any
error leaves both fields null. -/
def updateModuleSourceAndVersion (tfDataDirEnv : Option String)
    (manifest : Except String (List modulesJsonModulesModel))
    (data : TelemetryResourceModel) : TelemetryResourceModel :=
  let data := { data with moduleSource := .null, moduleVersion := .null }
  if !data.modulePath.isNull && !data.modulePath.isUnknown then
    match modulePathToKey tfDataDirEnv data.modulePath.valueString with
    | .error _ => data
    | .ok key =>
      match parseModulesJson manifest key with
      | .error _ => data
      | .ok m =>
        { data with moduleSource := .value m.Source,
                    moduleVersion := .value m.Version }
  else data

/-- `ModuleSourceDataSourceModel`: the `moduleSource`-interface fields of
the data source and provider functions (path in, source/version out). -/
structure ModuleSourceDataSourceModel where
  modulePath : TFString
  moduleSource : TFString
  moduleVersion : TFString
deriving DecidableEq, Repr

/-- `withModuleSourceAndVersion` (module_source_interface.go lines 20-32),
instantiated at the data-source model: null out source/version, then, for a
known module path, call `parseModulesJson` with the raw module path as the
lookup key (no key derivation); any error leaves both fields null. -/
def withModuleSourceAndVersion
    (manifest : Except String (List modulesJsonModulesModel))
    (data : ModuleSourceDataSourceModel) : ModuleSourceDataSourceModel :=
  let data := { data with moduleSource := .null, moduleVersion := .null }
  if !data.modulePath.isNull && !data.modulePath.isUnknown then
    match parseModulesJson manifest data.modulePath.valueString with
    | .error _ => data
    | .ok m =>
      { data with moduleSource := .value m.Source,
                  moduleVersion := .value m.Version }
  else data

/-! ## uuid.NewString (external `github.com/google/uuid` dependency) -/

/-- The sixteen lowercase hexadecimal digit characters. -/
def hexDigits : List Char := "0123456789abcdef".data

/-- The hex character of the nibble `n % 16`. -/
def nibbleChar (n : Nat) : Char := hexDigits.getD (n % 16) '0'

/-- The two hex characters of a byte value: high nibble then low nibble. -/
def byteHex (v : Nat) : List Char := [nibbleChar (v / 16), nibbleChar v]

/-- Modelled from the documented behavior of the external
`github.com/google/uuid` dependency (not part of this repository):
`uuid.NewString()` draws sixteen random bytes `b` and forces
`b[6] = b[6]&0x0f | 0x40` (version 4, clearing the high nibble makes the
`|` an addition of 0x40 = 64) and `b[8] = b[8]&0x3f | 0x80` (RFC 4122
variant, addition of 0x80 = 128), then formats the sixteen bytes as
lowercase hex in the `8-4-4-4-12` layout. -/
def uuidChars (b : Fin 16 → Nat) : List Char :=
  byteHex (b 0 % 256) ++ byteHex (b 1 % 256) ++
    byteHex (b 2 % 256) ++ byteHex (b 3 % 256) ++
  ['-'] ++ byteHex (b 4 % 256) ++ byteHex (b 5 % 256) ++
  ['-'] ++ byteHex (b 6 % 16 + 64) ++ byteHex (b 7 % 256) ++
  ['-'] ++ byteHex (b 8 % 64 + 128) ++ byteHex (b 9 % 256) ++
  ['-'] ++ byteHex (b 10 % 256) ++ byteHex (b 11 % 256) ++
    byteHex (b 12 % 256) ++ byteHex (b 13 % 256) ++
    byteHex (b 14 % 256) ++ byteHex (b 15 % 256)

/-- Modelled from the documented behavior of the external
`github.com/google/uuid` dependency: the canonical string of a freshly
generated version-4 UUID built from the sixteen random bytes `b`. -/
def uuidNewString (b : Fin 16 → Nat) : String := String.mk (uuidChars b)

/-- `c` is a lowercase hexadecimal digit. -/
def isHexChar (c : Char) : Bool := hexDigits.contains c

/-- Version-4 UUID textual format: 36 characters laid out
`xxxxxxxx-xxxx-4xxx-yxxx-xxxxxxxxxxxx` with `x` a lowercase hex digit and
`y` one of `8`, `9`, `a`, `b`. -/
def isUuidV4Chars : List Char → Bool
  | a0 :: a1 :: a2 :: a3 :: a4 :: a5 :: a6 :: a7 :: h1 ::
    b0 :: b1 :: b2 :: b3 :: h2 ::
    c0 :: c1 :: c2 :: c3 :: h3 ::
    e0 :: e1 :: e2 :: e3 :: h4 ::
    f0 :: f1 :: f2 :: f3 :: f4 :: f5 :: f6 :: f7 :: f8 :: f9 :: f10 ::
    f11 :: [] =>
    ([a0, a1, a2, a3, a4, a5, a6, a7, b0, b1, b2, b3, c1, c2, c3,
      e1, e2, e3, f0, f1, f2, f3, f4, f5, f6, f7, f8, f9, f10,
      f11].all isHexChar)
      && (h1 == '-') && (h2 == '-') && (h3 == '-') && (h4 == '-')
      && (c0 == '4')
      && (e0 == '8' || e0 == '9' || e0 == 'a' || e0 == 'b')
  | _ => false

/-- Version-4 UUID textual format, on strings. -/
def isUuidV4 (s : String) : Bool := isUuidV4Chars s.data

/-! ## Lifecycle operations (telemetry_resource.go Create/Read/Update/Delete) -/

/-- The resource data produced by `Create` (telemetry_resource.go lines
138-155): the plan data with module source/version updated and a fresh id
from `uuid.NewString()` (whose sixteen random bytes are the parameter
`b`). -/
def createOpData (tfDataDirEnv : Option String)
    (manifest : Except String (List modulesJsonModulesModel))
    (plan : TelemetryResourceModel) (b : Fin 16 → Nat) :
    TelemetryResourceModel :=
  let data := updateModuleSourceAndVersion tfDataDirEnv manifest plan
  { data with id := .value (uuidNewString b) }

/-- The resource data `Read` (lines 157-172) sends from and stores: the
prior state with module source/version refreshed; `Id` is not touched. -/
def readOpData (tfDataDirEnv : Option String)
    (manifest : Except String (List modulesJsonModulesModel))
    (state : TelemetryResourceModel) : TelemetryResourceModel :=
  updateModuleSourceAndVersion tfDataDirEnv manifest state

/-- The resource data `Update` (lines 174-188) sends from and stores: the
plan data with module source/version refreshed.  The `id` attribute is
`Computed` with the `UseStateForUnknown` plan modifier
(telemetry_resource.go lines 70-76), so the framework carries the prior
state's id into the plan; theorems state this as a hypothesis on the plan. -/
def updateOpData (tfDataDirEnv : Option String)
    (manifest : Except String (List modulesJsonModulesModel))
    (plan : TelemetryResourceModel) : TelemetryResourceModel :=
  updateModuleSourceAndVersion tfDataDirEnv manifest plan

/-- The resource data `Delete` (lines 190-202) sends from: the prior state,
unchanged. -/
def deleteOpData (state : TelemetryResourceModel) : TelemetryResourceModel :=
  state

/-! ## The validate-then-apply pipeline -/

/-- What one lifecycle operation did: the error diagnostics surfaced to the
caller, whether `sendTags` reached the call of the memoized provider
endpoint function, and the POST handed to `sendPostRequest` (if any). -/
structure LifecycleOutcome where
  diags : List String
  resolutionInvoked : Bool
  request : Option PostRequest

/-- Whether `sendTags` calls `r.providerEndpointFunc()`: it returns early
when the provider is disabled, and takes the resource-endpoint branch when
`defaultEndpointOnProviderBlock` is set and the resource endpoint is
non-null. -/
def providerEndpointFuncInvoked (enabled defaultEndpointOnProviderBlock : Bool)
    (m : TelemetryResourceModel) : Bool :=
  enabled && (!defaultEndpointOnProviderBlock || m.endpoint.isNull)

/-- One lifecycle operation under the host.  The ordering is modelled from
the spec: the plugin framework runs the schema validators (here
`mapValidator.ValidateMap` on `tags`) at configuration-validation time and
aborts before the lifecycle method — and with it endpoint resolution and
telemetry delivery — runs, whenever validation produced an error
diagnostic; on a pass the lifecycle method runs and calls `sendTags`.
`enabledAttr` is the provider block's `enabled` attribute (`none` = null,
defaulted to `true` in `Configure`, provider.go lines 90-93). -/
def applyLifecycle (env : ConfigureEnv) (enabledAttr : Option Bool)
    (m : TelemetryResourceModel) (event : String) : LifecycleOutcome :=
  let diags := validateMap (m.tags.map Prod.fst)
  if diags ≠ [] then ⟨diags, false, none⟩
  else
    let enabled := enabledAttr.getD true
    let dflt := defaultEndpointFlag env
    ⟨[], providerEndpointFuncInvoked enabled dflt m,
      m.sendTags enabled dflt (endpointOnceBody env) event⟩

/-! ## Helper lemmas -/

/-- Any request `sendTags` emits carries the chosen endpoint as URL and the
payload tag map. -/
lemma sendTags_eq_some (m : TelemetryResourceModel)
    (enabled dflt : Bool) (v event : String) (req : PostRequest)
    (h : m.sendTags enabled dflt v event = some req) :
    req.url = chosenEndpoint dflt v m ∧ req.payload = m.payloadTags event := by
  unfold TelemetryResourceModel.sendTags at h
  cases enabled with
  | false => simp at h
  | true =>
    simp only [Bool.not_true, Bool.false_eq_true, if_false, ite_not] at h
    split at h
    · exact absurd h (by simp)
    · exact ⟨by simp [← Option.some_inj.mp h], by simp [← Option.some_inj.mp h]⟩

/-- When the provider block sets an endpoint, the once-body resolves to it. -/
lemma endpointOnceBody_of_providerEndpoint (env : ConfigureEnv) (e : String)
    (h : env.providerEndpoint = TFString.value e) :
    endpointOnceBody env = e := by
  simp [endpointOnceBody, h, TFString.isNull, readEndpointFromProviderBlock,
    TFString.unquoteGoString]

/-- `validateMap` yields no diagnostics exactly when no configured key is the
reserved key `event`. -/
lemma validateMap_eq_nil_iff (keys : List String) :
    validateMap keys = [] ↔ "event" ∉ keys := by
  unfold validateMap reservedKeys
  rw [List.filterMap_eq_nil_iff]
  constructor
  · intro h hmem
    have := h "event" hmem
    simp at this
  · intro h k hk
    have : k ≠ "event" := fun he => h (he ▸ hk)
    simp [this]

/-- Once the `sync.Once` gate has fired with value `e`, every further call
returns `e` and never re-executes the body. -/
lemma callTrace_done (env : ConfigureEnv) (e : String) (n : Nat) :
    callTrace env n ⟨true, e⟩ = List.replicate n (e, false) := by
  induction n with
  | zero => rfl
  | succ n ih => simp [callTrace, endpointFuncCall, ih, List.replicate_succ]

/-! ## Claims -/

/-- C1: whenever the provider-level `endpoint` attribute is set, every
`sendTags` (any lifecycle event) uses the provider-level endpoint and
ignores the resource-level one; the resource-level endpoint branch is taken
exactly when the provider-level endpoint is null, `MODTM_ENDPOINT` is
empty, and the resource sets a non-null endpoint. -/
theorem c1_provider_endpoint_precedence (env : ConfigureEnv)
    (m : TelemetryResourceModel) (enabled : Bool) (event : String) :
    (∀ e, env.providerEndpoint = TFString.value e →
      chosenEndpoint (defaultEndpointFlag env) (endpointOnceBody env) m = e ∧
      ∀ req, m.sendTags enabled (defaultEndpointFlag env)
          (endpointOnceBody env) event = some req → req.url = e) ∧
    (resourceEndpointUsed (defaultEndpointFlag env) m = true ↔
      env.providerEndpoint.isNull = true ∧ env.endpointEnv = "" ∧
        m.endpoint.isNull = false) ∧
    (resourceEndpointUsed (defaultEndpointFlag env) m = true →
      chosenEndpoint (defaultEndpointFlag env) (endpointOnceBody env) m
        = m.readEndpoint) ∧
    (∀ req, m.sendTags enabled (defaultEndpointFlag env)
        (endpointOnceBody env) event = some req →
      req.url = chosenEndpoint (defaultEndpointFlag env)
        (endpointOnceBody env) m) := by
  refine ⟨?_, ?_, ?_, ?_⟩
  · intro e he
    have hflag : defaultEndpointFlag env = false := by
      simp [defaultEndpointFlag, he, TFString.isNull]
    have hchosen : chosenEndpoint (defaultEndpointFlag env)
        (endpointOnceBody env) m = e := by
      rw [hflag, endpointOnceBody_of_providerEndpoint env e he]
      simp [chosenEndpoint]
    refine ⟨hchosen, fun req hreq => ?_⟩
    rw [(sendTags_eq_some m enabled _ _ event req hreq).1, hchosen]
  · unfold resourceEndpointUsed defaultEndpointFlag
    simp [Bool.and_eq_true, Bool.not_eq_true', and_assoc]
  · intro h
    unfold resourceEndpointUsed at h
    unfold chosenEndpoint
    simp only [Bool.and_eq_true, Bool.not_eq_true'] at h
    simp [h.1, h.2]
  · intro req hreq
    exact (sendTags_eq_some m enabled _ _ event req hreq).1

/-- C2: with the provider-level endpoint null, `MODTM_ENDPOINT` empty, the
resource-level endpoint null and the remote default-endpoint fetch failing,
the resolved endpoint is `""`, no POST is handed to `sendPostRequest` for
any lifecycle event, and the operation surfaces no error diagnostics. -/
theorem c2_all_tiers_fail_disables_telemetry (enabledAttr : Option Bool)
    (m : TelemetryResourceModel) (event : String)
    (hres : m.endpoint = TFString.null)
    (htags : "event" ∉ m.tags.map Prod.fst) :
    endpointOnceBody ⟨TFString.null, "", Except.error ()⟩ = "" ∧
    (applyLifecycle ⟨TFString.null, "", Except.error ()⟩ enabledAttr m
      event).request = none ∧
    (applyLifecycle ⟨TFString.null, "", Except.error ()⟩ enabledAttr m
      event).diags = [] := by
  have hbody : endpointOnceBody ⟨TFString.null, "", Except.error ()⟩ = "" := by
    simp [endpointOnceBody, TFString.isNull]
  have hvalid : validateMap (m.tags.map Prod.fst) = [] :=
    (validateMap_eq_nil_iff _).mpr htags
  have hsend : ∀ en, m.sendTags en
      (defaultEndpointFlag ⟨TFString.null, "", Except.error ()⟩)
      (endpointOnceBody ⟨TFString.null, "", Except.error ()⟩) event = none := by
    intro en
    cases en with
    | false => simp [TelemetryResourceModel.sendTags]
    | true =>
      simp [TelemetryResourceModel.sendTags, hbody, chosenEndpoint,
        defaultEndpointFlag, TFString.isNull, hres]
  refine ⟨hbody, ?_, ?_⟩ <;> simp [applyLifecycle, hvalid, hsend]

/-- C3: the endpoint-resolution body guarded by `sync.Once` executes at most
once across any sequence of sequential calls, and every call returns the
memoized resolution result unchanged. -/
theorem c3_resolution_at_most_once (env : ConfigureEnv) (n : Nat) :
    (callTrace env n initialOnceState).countP (fun r => r.2) ≤ 1 ∧
    ∀ r ∈ callTrace env n initialOnceState, r.1 = endpointOnceBody env := by
  cases n with
  | zero => simp [callTrace]
  | succ n =>
    have hstep : callTrace env (n + 1) initialOnceState =
        (endpointOnceBody env, true) ::
          List.replicate n (endpointOnceBody env, false) := by
      simp [callTrace, endpointFuncCall, initialOnceState, callTrace_done]
    rw [hstep]
    constructor
    · rw [List.countP_cons]
      have : (List.replicate n (endpointOnceBody env, false)).countP
          (fun r => r.2) = 0 := by
        rw [List.countP_eq_zero]
        intro a ha
        rw [List.eq_of_mem_replicate ha]
        simp
      simp [this]
    · intro r hr
      rcases List.mem_cons.mp hr with h | h
      · rw [h]
      · rw [List.eq_of_mem_replicate h]

/-- C8: a configured `tags` map draws a hard configuration error exactly
when it contains the reserved key `event`, and the rejection happens at
validation time: the operation then performs no endpoint resolution and no
telemetry delivery. -/
theorem c8_reserved_key_validation (env : ConfigureEnv)
    (enabledAttr : Option Bool) (m : TelemetryResourceModel)
    (event : String) :
    ((applyLifecycle env enabledAttr m event).diags ≠ [] ↔
      "event" ∈ m.tags.map Prod.fst) ∧
    ("event" ∈ m.tags.map Prod.fst →
      (applyLifecycle env enabledAttr m event).request = none ∧
      (applyLifecycle env enabledAttr m event).resolutionInvoked = false) := by
  by_cases hmem : "event" ∈ m.tags.map Prod.fst
  · have hne : validateMap (m.tags.map Prod.fst) ≠ [] := fun hnil =>
      (validateMap_eq_nil_iff _).mp hnil hmem
    exact ⟨by simp [applyLifecycle, hne, hmem],
      fun _ => by simp [applyLifecycle, hne]⟩
  · have hnil : validateMap (m.tags.map Prod.fst) = [] :=
      (validateMap_eq_nil_iff _).mpr hmem
    exact ⟨by simp [applyLifecycle, hnil, hmem],
      fun h => absurd h hmem⟩

/-- C10: every request `sendTags` emits copies each user tag verbatim into
the payload except the keys `source`, `version`, `event` and `resource_id`,
which are overwritten with system-computed values; validation rejects only
the reserved key `event`, so user tags named `source`, `version` or
`resource_id` pass validation but never reach the payload with their
user-supplied values. -/
theorem c10_payload_frame (m : TelemetryResourceModel)
    (enabled dflt : Bool) (v event : String) (req : PostRequest)
    (h : m.sendTags enabled dflt v event = some req) :
    (∀ k, k ≠ "source" → k ≠ "version" → k ≠ "event" → k ≠ "resource_id" →
      req.payload k = m.readTags k) ∧
    req.payload "source" = some m.moduleSource.valueString ∧
    req.payload "version" = some m.moduleVersion.valueString ∧
    req.payload "event" = some event ∧
    req.payload "resource_id" = some m.readResourceId ∧
    (validateMap (m.tags.map Prod.fst) = [] ↔
      "event" ∉ m.tags.map Prod.fst) := by
  have hp := (sendTags_eq_some m enabled dflt v event req h).2
  rw [hp]
  refine ⟨?_, ?_, ?_, ?_, ?_, validateMap_eq_nil_iff _⟩
  · intro k h1 h2 h3 h4
    simp [TelemetryResourceModel.payloadTags, h1, h2, h3, h4]
  all_goals simp [TelemetryResourceModel.payloadTags]

/-- C6: evaluation of both manifest-lookup paths at the claim's example
manifest entry (`Key` `kv`, `Source` `registry.terraform.io/Azure/x`,
`Version` `0.6.1`; the source's entry struct has no `Dir` field).  The
telemetry-resource path (`updateModuleSourceAndVersion` via
`modulePathToKey`) resolves the directory `.terraform/modules/kv` and
leaves an unlisted directory absent, as the claim states; but the
data-source / provider-function path (`withModuleSourceAndVersion`) passes
the full directory path as the `Key` to `parseModulesJson`, matches
nothing, and returns both fields null — contradicting the claim and the
repository's own `module_source_data_source_test.go` /
`module_source_function_test.go`. -/
theorem c6_manifest_lookup_eval :
    ((updateModuleSourceAndVersion none
        (Except.ok [⟨"kv", "registry.terraform.io/Azure/x", "0.6.1"⟩])
        ⟨TFString.null, [], TFString.null,
          TFString.value ".terraform/modules/kv",
          TFString.null, TFString.null⟩).moduleSource
      = TFString.value "registry.terraform.io/Azure/x") ∧
    ((updateModuleSourceAndVersion none
        (Except.ok [⟨"kv", "registry.terraform.io/Azure/x", "0.6.1"⟩])
        ⟨TFString.null, [], TFString.null,
          TFString.value ".terraform/modules/kv",
          TFString.null, TFString.null⟩).moduleVersion
      = TFString.value "0.6.1") ∧
    ((updateModuleSourceAndVersion none
        (Except.ok [⟨"kv", "registry.terraform.io/Azure/x", "0.6.1"⟩])
        ⟨TFString.null, [], TFString.null,
          TFString.value ".terraform/modules/unlisted",
          TFString.null, TFString.null⟩).moduleSource = TFString.null) ∧
    ((updateModuleSourceAndVersion none
        (Except.ok [⟨"kv", "registry.terraform.io/Azure/x", "0.6.1"⟩])
        ⟨TFString.null, [], TFString.null,
          TFString.value ".terraform/modules/unlisted",
          TFString.null, TFString.null⟩).moduleVersion = TFString.null) ∧
    ((withModuleSourceAndVersion
        (Except.ok [⟨"kv", "registry.terraform.io/Azure/x", "0.6.1"⟩])
        ⟨TFString.value ".terraform/modules/kv",
          TFString.null, TFString.null⟩).moduleSource = TFString.null) ∧
    ((withModuleSourceAndVersion
        (Except.ok [⟨"kv", "registry.terraform.io/Azure/x", "0.6.1"⟩])
        ⟨TFString.value ".terraform/modules/kv",
          TFString.null, TFString.null⟩).moduleVersion = TFString.null) := by
  decide

/-- C9 counterexample: a resource whose module coordinates are unresolved
(`moduleSource` and `moduleVersion` null) still sends a payload that
includes the keys `source` and `version` (mapped to `""`), so the payload
does not include `source`/`version` "only when module coordinates were
resolved" as the claim states. -/
theorem c9_source_version_always_present :
    (TelemetryResourceModel.sendTags
        ⟨TFString.value "00000000-0000-4000-8000-000000000000",
          [("foo", "bar")], TFString.null, TFString.null,
          TFString.null, TFString.null⟩
        true false "https://telemetry.example" "create").map
      (fun r => (r.payload "source", r.payload "version"))
      = some (some "", some "") ∧
    (TFString.null : TFString).isNull = true := by
  constructor
  · rfl
  · rfl

/-- C9 amended: every payload `sendTags` emits is a flat string-to-string
map that always contains the four reserved keys — `event`, `resource_id`,
and also `source` and `version`, the latter two carrying the resolved
module coordinates when available and the empty string otherwise — and
`sendPostRequest` issues it as a POST with `Content-Type:
application/json` to the chosen URL whenever the request is built. -/
theorem c9_amended_payload_shape (m : TelemetryResourceModel)
    (enabled dflt : Bool) (v event : String) (req : PostRequest)
    (h : m.sendTags enabled dflt v event = some req) :
    req.payload "event" = some event ∧
    req.payload "resource_id" = some m.readResourceId ∧
    req.payload "source" = some m.moduleSource.valueString ∧
    req.payload "version" = some m.moduleVersion.valueString ∧
    (∀ envS : SendEnv, envS.marshalError = none →
      envS.newRequestError = none →
      (sendPostRequest req.url req.payload envS).request
        = some ⟨"POST", req.url, "application/json"⟩) := by
  have hp := (sendTags_eq_some m enabled dflt v event req h).2
  rw [hp]
  refine ⟨by simp [TelemetryResourceModel.payloadTags],
    by simp [TelemetryResourceModel.payloadTags],
    by simp [TelemetryResourceModel.payloadTags],
    by simp [TelemetryResourceModel.payloadTags], ?_⟩
  intro envS h1 h2
  cases hn : envS.netOutcome <;>
    simp [sendPostRequest, h1, h2, hn]

/-- C5 counterexample: a JSON-serialization failure is logged at error
level but without the triggering event name — the log line for a marshal
failure on a `create` event does not contain `create` — so the claim's
"each logged ... with the triggering event name" fails for serialization
failures. -/
theorem c5_marshal_log_lacks_event_name :
    (sendPostRequest "https://telemetry.example"
        (fun k => if k = "event" then some "create" else none)
        ⟨some "marshal failure", none, NetOutcome.timeout⟩).logs
      = [LogEntry.error
          "error on unmarshal telemetry resource: marshal failure"] ∧
    ¬ strContains "error on unmarshal telemetry resource: marshal failure"
        "create" ∧
    (sendPostRequest "https://telemetry.example"
        (fun k => if k = "event" then some "create" else none)
        ⟨some "marshal failure", none, NetOutcome.timeout⟩).surfacedError
      = none := by
  refine ⟨rfl, by decide, rfl⟩

/-- The middle factor of a three-part concatenation is a substring. -/
lemma strContains_append_mid (a b c : String) :
    strContains (a ++ b ++ c) b := by
  refine ⟨a.data, c.data, ?_⟩
  simp [String.data_append, List.append_assoc]

/-- The second factor of a four-part concatenation is a substring. -/
lemma strContains_append_mid4 (a b c d : String) :
    strContains (a ++ b ++ c ++ d) b := by
  refine ⟨a.data, c.data ++ d.data, ?_⟩
  simp [String.data_append, List.append_assoc]

/-- C5 amended: every call of `sendPostRequest` returns without surfacing
an error and starts at most one HTTP attempt (no retry); a
request-construction failure, a connection error and a timeout are logged
at error level with the triggering event name in the message, while a
serialization failure is logged at error level without it; and any
response status is treated as delivered — the request was issued, nothing
is logged at error level, and the status is not otherwise interpreted. -/
theorem c5_amended_error_handling (url : String)
    (tags : String → Option String) (env : SendEnv) :
    (sendPostRequest url tags env).surfacedError = none ∧
    (sendPostRequest url tags env).attempts ≤ 1 ∧
    (∀ e, env.marshalError = some e →
      LogEntry.error ("error on unmarshal telemetry resource: " ++ e)
        ∈ (sendPostRequest url tags env).logs) ∧
    (∀ e, env.marshalError = none → env.newRequestError = some e →
      ∃ msg, LogEntry.error msg ∈ (sendPostRequest url tags env).logs ∧
        strContains msg ((tags "event").getD "")) ∧
    (∀ e, env.marshalError = none → env.newRequestError = none →
      env.netOutcome = NetOutcome.connError e →
      ∃ msg, LogEntry.error msg ∈ (sendPostRequest url tags env).logs ∧
        strContains msg ((tags "event").getD "")) ∧
    (env.marshalError = none → env.newRequestError = none →
      env.netOutcome = NetOutcome.timeout →
      ∃ msg, LogEntry.error msg ∈ (sendPostRequest url tags env).logs ∧
        strContains msg ((tags "event").getD "")) ∧
    (∀ status, env.marshalError = none → env.newRequestError = none →
      env.netOutcome = NetOutcome.response status →
      (sendPostRequest url tags env).request
          = some ⟨"POST", url, "application/json"⟩ ∧
        ∀ msg, LogEntry.error msg ∉ (sendPostRequest url tags env).logs) := by
  obtain ⟨me, ne, no⟩ := env
  refine ⟨?_, ?_, ?_, ?_, ?_, ?_, ?_⟩
  · cases me <;> cases ne <;> cases no <;> rfl
  · cases me <;> cases ne <;> cases no <;> simp [sendPostRequest]
  · rintro e rfl
    simp [sendPostRequest]
  · rintro e rfl rfl
    refine ⟨"error on composing http request for " ++
      (tags "event").getD "" ++ " telemetry resource: " ++ e, ?_, ?_⟩
    · simp [sendPostRequest]
    · exact strContains_append_mid4 "error on composing http request for "
        ((tags "event").getD "") " telemetry resource: " e
  · rintro e rfl rfl rfl
    refine ⟨"error on " ++ (tags "event").getD "" ++
      " telemetry resource: " ++ e, ?_, ?_⟩
    · simp [sendPostRequest]
    · exact strContains_append_mid4 "error on " ((tags "event").getD "")
        " telemetry resource: " e
  · rintro rfl rfl rfl
    refine ⟨"timeout on " ++ (tags "event").getD "" ++
      " telemetry resource", ?_, ?_⟩
    · simp [sendPostRequest]
    · exact strContains_append_mid "timeout on " ((tags "event").getD "")
        " telemetry resource"
  · rintro status rfl rfl rfl
    refine ⟨by simp [sendPostRequest], ?_⟩
    intro msg hmem
    simp [sendPostRequest] at hmem

/-- Every nibble character is a lowercase hex digit. -/
lemma isHexChar_nibbleChar (n : Nat) : isHexChar (nibbleChar n) = true := by
  unfold nibbleChar
  generalize hg : n % 16 = k
  have h : k < 16 := hg ▸ Nat.mod_lt _ (by norm_num)
  interval_cases k <;> decide

/-- The high nibble of the version-forced byte 6 formats as `4`. -/
lemma version_nibble (x : Nat) : nibbleChar ((x % 16 + 64) / 16) = '4' := by
  have h : (x % 16 + 64) / 16 = 4 := by omega
  rw [h]
  decide

/-- The high nibble of the variant-forced byte 8 formats as one of
`8`, `9`, `a`, `b`. -/
lemma variant_nibble (x : Nat) :
    (nibbleChar ((x % 64 + 128) / 16) == '8' ||
     nibbleChar ((x % 64 + 128) / 16) == '9' ||
     nibbleChar ((x % 64 + 128) / 16) == 'a' ||
     nibbleChar ((x % 64 + 128) / 16) == 'b') = true := by
  have h : (x % 64 + 128) / 16 = x % 64 / 16 + 8 := by omega
  rw [h]
  have h4 : x % 64 / 16 < 4 := by omega
  generalize hg : x % 64 / 16 = j at h4 ⊢
  interval_cases j <;> decide

/-- Every generated UUID string is in version-4 format. -/
lemma isUuidV4_uuidNewString (b : Fin 16 → Nat) :
    isUuidV4 (uuidNewString b) = true := by
  show isUuidV4Chars (uuidChars b) = true
  simp only [uuidChars, byteHex, List.cons_append, List.nil_append]
  rw [isUuidV4Chars]
  simp only [List.all_cons, List.all_nil, Bool.and_true,
    isHexChar_nibbleChar, Bool.true_and, version_nibble, variant_nibble]
  decide

/-- `updateModuleSourceAndVersion` never touches the `Id` attribute. -/
lemma updateModuleSourceAndVersion_id (tfd : Option String)
    (manifest : Except String (List modulesJsonModulesModel))
    (data : TelemetryResourceModel) :
    (updateModuleSourceAndVersion tfd manifest data).id = data.id := by
  unfold updateModuleSourceAndVersion
  dsimp only
  split
  · split
    · rfl
    · split <;> rfl
  · rfl

/-- C7: `Create` assigns `id` a freshly generated version-4-format UUID,
`Read`, `Update` (whose plan carries the state id via the
`UseStateForUnknown` plan modifier) and `Delete` leave `id` unchanged, and
the `resource_id` sent with every subsequent event's payload equals the
UUID generated at creation. -/
theorem c7_resource_id_stable (tfd : Option String)
    (manifest : Except String (List modulesJsonModulesModel))
    (plan plan2 : TelemetryResourceModel) (b : Fin 16 → Nat)
    (enabled dflt : Bool) (v : String) :
    isUuidV4 (uuidNewString b) = true ∧
    (createOpData tfd manifest plan b).id
      = TFString.value (uuidNewString b) ∧
    (readOpData tfd manifest (createOpData tfd manifest plan b)).id
      = (createOpData tfd manifest plan b).id ∧
    (plan2.id = (createOpData tfd manifest plan b).id →
      (updateOpData tfd manifest plan2).id
        = (createOpData tfd manifest plan b).id) ∧
    (deleteOpData (createOpData tfd manifest plan b)).id
      = (createOpData tfd manifest plan b).id ∧
    (∀ event req, (createOpData tfd manifest plan b).sendTags enabled dflt
        v event = some req →
      req.payload "resource_id" = some (uuidNewString b)) ∧
    (∀ event req, (readOpData tfd manifest
          (createOpData tfd manifest plan b)).sendTags enabled dflt v event
        = some req →
      req.payload "resource_id" = some (uuidNewString b)) ∧
    (plan2.id = (createOpData tfd manifest plan b).id →
      ∀ event req, (updateOpData tfd manifest plan2).sendTags enabled dflt
          v event = some req →
        req.payload "resource_id" = some (uuidNewString b)) := by
  have hid : (createOpData tfd manifest plan b).id
      = TFString.value (uuidNewString b) := rfl
  have hread : (readOpData tfd manifest (createOpData tfd manifest plan b)).id
      = (createOpData tfd manifest plan b).id :=
    updateModuleSourceAndVersion_id _ _ _
  have hpayload : ∀ (m : TelemetryResourceModel),
      m.id = TFString.value (uuidNewString b) →
      ∀ event req, m.sendTags enabled dflt v event = some req →
        req.payload "resource_id" = some (uuidNewString b) := by
    intro m hm event req hreq
    rw [(sendTags_eq_some m enabled dflt v event req hreq).2]
    simp [TelemetryResourceModel.payloadTags,
      TelemetryResourceModel.readResourceId, hm, TFString.unquoteGoString]
  refine ⟨isUuidV4_uuidNewString b, hid, hread, ?_, rfl,
    hpayload _ hid, hpayload _ (hread.trans hid), ?_⟩
  · intro h2
    exact (updateModuleSourceAndVersion_id tfd manifest plan2).trans h2
  · intro h2
    exact hpayload _
      ((updateModuleSourceAndVersion_id tfd manifest plan2).trans
        (h2.trans hid))

/-! ## Witnesses -/

/-- Witness for C1 at a provider block endpoint `https://p` and a resource
that sets a different endpoint `https://r`. -/
theorem c1_provider_endpoint_precedence_witness :
    chosenEndpoint
      (defaultEndpointFlag
        ⟨TFString.value "https://p", "", Except.ok "x"⟩)
      (endpointOnceBody ⟨TFString.value "https://p", "", Except.ok "x"⟩)
      ⟨TFString.null, [], TFString.value "https://r", TFString.null,
        TFString.null, TFString.null⟩ = "https://p" :=
  ((c1_provider_endpoint_precedence
      ⟨TFString.value "https://p", "", Except.ok "x"⟩
      ⟨TFString.null, [], TFString.value "https://r", TFString.null,
        TFString.null, TFString.null⟩ true "create").1
    "https://p" rfl).1

/-- Witness for C2 at a concrete resource with valid tags. -/
theorem c2_all_tiers_fail_disables_telemetry_witness :
    (applyLifecycle ⟨TFString.null, "", Except.error ()⟩ none
      ⟨TFString.value "id", [("foo", "bar")], TFString.null, TFString.null,
        TFString.null, TFString.null⟩ "create").request = none :=
  (c2_all_tiers_fail_disables_telemetry none
    ⟨TFString.value "id", [("foo", "bar")], TFString.null, TFString.null,
      TFString.null, TFString.null⟩ "create" rfl (by decide)).2.1

/-- Witness for C3 at a four-call trace resolved from `MODTM_ENDPOINT`. -/
theorem c3_resolution_at_most_once_witness :
    (callTrace ⟨TFString.null, "https://env", Except.ok "x"⟩ 4
        initialOnceState).countP (fun r => r.2) ≤ 1 ∧
    ("https://env", true).1
      = endpointOnceBody ⟨TFString.null, "https://env", Except.ok "x"⟩ :=
  ⟨(c3_resolution_at_most_once
      ⟨TFString.null, "https://env", Except.ok "x"⟩ 4).1,
    (c3_resolution_at_most_once
      ⟨TFString.null, "https://env", Except.ok "x"⟩ 4).2
      ("https://env", true) (by decide)⟩

/-- Witness for the amended C5 at a concrete timed-out delivery. -/
theorem c5_amended_error_handling_witness :
    ∃ msg, LogEntry.error msg ∈ (sendPostRequest "https://e"
        (fun _ => some "create") ⟨none, none, NetOutcome.timeout⟩).logs ∧
      strContains msg "create" :=
  (c5_amended_error_handling "https://e" (fun _ => some "create")
    ⟨none, none, NetOutcome.timeout⟩).2.2.2.2.2.1 rfl rfl rfl

/-- Witness for C7 at zero entropy bytes and an update plan carrying the
created id. -/
theorem c7_resource_id_stable_witness :
    isUuidV4 (uuidNewString (fun _ => 0)) = true ∧
    (updateOpData none (Except.error "e")
        ⟨TFString.value "00000000-0000-4000-8000-000000000000", [],
          TFString.null, TFString.null, TFString.null, TFString.null⟩).id
      = (createOpData none (Except.error "e")
          ⟨TFString.null, [], TFString.null, TFString.null, TFString.null,
            TFString.null⟩ (fun _ => 0)).id :=
  ⟨(c7_resource_id_stable none (Except.error "e")
      ⟨TFString.null, [], TFString.null, TFString.null, TFString.null,
        TFString.null⟩
      ⟨TFString.value "00000000-0000-4000-8000-000000000000", [],
        TFString.null, TFString.null, TFString.null, TFString.null⟩
      (fun _ => 0) true false "v").1,
    (c7_resource_id_stable none (Except.error "e")
      ⟨TFString.null, [], TFString.null, TFString.null, TFString.null,
        TFString.null⟩
      ⟨TFString.value "00000000-0000-4000-8000-000000000000", [],
        TFString.null, TFString.null, TFString.null, TFString.null⟩
      (fun _ => 0) true false "v").2.2.2.1 (by decide)⟩

/-- Witness for C8 at a tags map containing the reserved key `event`. -/
theorem c8_reserved_key_validation_witness :
    (applyLifecycle ⟨TFString.null, "", Except.ok "x"⟩ none
        ⟨TFString.null, [("event", "boom")], TFString.null, TFString.null,
          TFString.null, TFString.null⟩ "create").request = none ∧
    (applyLifecycle ⟨TFString.null, "", Except.ok "x"⟩ none
        ⟨TFString.null, [("event", "boom")], TFString.null, TFString.null,
          TFString.null, TFString.null⟩ "create").resolutionInvoked
      = false :=
  (c8_reserved_key_validation ⟨TFString.null, "", Except.ok "x"⟩ none
    ⟨TFString.null, [("event", "boom")], TFString.null, TFString.null,
      TFString.null, TFString.null⟩ "create").2 (by decide)

/-- Witness for the amended C9 at a concrete emitted request. -/
theorem c9_amended_payload_shape_witness :
    (TelemetryResourceModel.payloadTags
        ⟨TFString.value "id", [("foo", "bar")], TFString.null, TFString.null,
          TFString.null, TFString.null⟩ "create") "event" = some "create" :=
  (c9_amended_payload_shape
    ⟨TFString.value "id", [("foo", "bar")], TFString.null, TFString.null,
      TFString.null, TFString.null⟩ true false "https://e" "create"
    ⟨"https://e",
      TelemetryResourceModel.payloadTags
        ⟨TFString.value "id", [("foo", "bar")], TFString.null, TFString.null,
          TFString.null, TFString.null⟩ "create"⟩ rfl).1

/-- Witness for C10 at a concrete emitted request. -/
theorem c10_payload_frame_witness :
    (TelemetryResourceModel.payloadTags
        ⟨TFString.value "id", [("source", "user-set")], TFString.null,
          TFString.null, TFString.null, TFString.null⟩ "update") "source"
      = some ((TFString.null : TFString).valueString) :=
  (c10_payload_frame
    ⟨TFString.value "id", [("source", "user-set")], TFString.null,
      TFString.null, TFString.null, TFString.null⟩ true false "https://u"
    "update"
    ⟨"https://u",
      TelemetryResourceModel.payloadTags
        ⟨TFString.value "id", [("source", "user-set")], TFString.null,
          TFString.null, TFString.null, TFString.null⟩ "update"⟩ rfl).2.1

end Modtm
